import Mathlib

/-!
Verification of the service-name resolution and event fan-out logic of
`expo-accessibility-service` (Android side).

The embedding follows the Kotlin sources:
  * `android/.../ExpoAccessibilityServiceModule.kt` — configuration state
    (`serviceClassName`), candidate resolution (`getServiceNamesToCheck`),
    manifest scanning (`getAccessibilityServicesFromManifest`) and the
    membership test (`isAccessibilityServiceEnabled`);
  * `android/.../AccessibilityService.kt` — the listener registry
    (`addEventListener`, `removeEventListener`, `setEventListener`) and the
    dispatch logic (`notifyListeners`, `onAccessibilityEvent`).

Nullable Kotlin values are embedded as `Option`; the manifest-scan
collaborator that may throw is embedded as an `Except` input; the
thread-safe `LinkedHashSet` registry is embedded as a duplicate-free list in
insertion order.
-/

namespace ExpoAccessibility

/-! ## String helpers

Kotlin string primitives used by the module, embedded over `List Char` so
that all definitions compute by structural recursion. -/

/-- Kotlin `String.contains(other)` on char lists: `pat` occurs as a
contiguous substring of `hay`. -/
def listContainsSub (hay pat : List Char) : Bool :=
  hay.tails.any (fun t => pat.isPrefixOf t)

/-- Kotlin `String.contains(other : String)`. -/
def containsSubstring (hay pat : String) : Bool :=
  listContainsSub hay.toList pat.toList

/-- Split a char list on a separator character (Kotlin `split(":")` /
`TextUtils.SimpleStringSplitter` token semantics). -/
def splitOnChar (sep : Char) : List Char → List (List Char)
  | [] => [[]]
  | c :: rest =>
    let r := splitOnChar sep rest
    if c == sep then [] :: r
    else
      match r with
      | [] => [[c]]
      | t :: ts => (c :: t) :: ts

/-- ASCII whitespace, the characters `trim` strips in the strings at hand. -/
def isWhitespaceChar (c : Char) : Bool :=
  c == ' ' || c == '\t' || c == '\n' || c == '\r'

/-- Kotlin `String.trim()`: drop leading and trailing whitespace. -/
def trimChars (s : List Char) : List Char :=
  ((s.dropWhile isWhitespaceChar).reverse.dropWhile isWhitespaceChar).reverse

/-- Android `TextUtils.isEmpty(str)`: true iff the nullable string is null
or has length zero. -/
def textUtilsIsEmpty : Option String → Bool
  | none => true
  | some s => s.isEmpty

/-! ## Service-name resolver (`ExpoAccessibilityServiceModule.kt`) -/

/-- A manifest `ServiceInfo` entry: class name and the (nullable)
`android:permission` attribute. -/
structure ServiceInfo where
  name : String
  permission : Option String
deriving DecidableEq

/-- `isAccessibilityService(serviceInfo)`: the service declares the
`BIND_ACCESSIBILITY_SERVICE` permission. -/
def isAccessibilityService (si : ServiceInfo) : Bool :=
  si.permission == some "android.permission.BIND_ACCESSIBILITY_SERVICE"

/-- `getAccessibilityServicesFromManifest()`. The package-manager
collaborator is embedded as an `Except` input: `.error` is a thrown
exception (caught, yielding `[]`), `.ok none` is a package with a null
`services` array (the `?: emptyList()` branch), `.ok (some l)` a successful
scan. -/
def getAccessibilityServicesFromManifest
    (scanResult : Except String (Option (List ServiceInfo))) : List String :=
  match scanResult with
  | .error _ => []
  | .ok none => []
  | .ok (some services) =>
    (services.filter isAccessibilityService).map ServiceInfo.name

/-- `setServiceClassName`: unconditional overwrite of the stored
configuration. The bridged argument is a non-nullable `String`, so the
state can never return to `none`. -/
def setServiceClassName (className : String) (_state : Option String) :
    Option String :=
  some className

/-- `getServiceNamesToCheck()`: the three-rule candidate resolution.
`serviceClassName` is the configuration state, `detectedServices` the
(already exception-absorbed) manifest scan result. -/
def getServiceNamesToCheck (packageName : String)
    (serviceClassName : Option String) (detectedServices : List String) :
    List String :=
  match serviceClassName with
  | some cls => [packageName ++ "/" ++ cls]
  | none =>
    if !detectedServices.isEmpty then
      detectedServices.map (fun n => packageName ++ "/" ++ n)
    else
      [packageName ++ "/" ++ packageName ++ ".MyAccessibilityService"]

/-- `isAccessibilityServiceEnabled()`, factored over its two inputs: the
candidate list from `getServiceNamesToCheck` and the nullable
`Settings.Secure` enabled-services string. The membership test is Kotlin
`enabledServices.contains(serviceName)` — substring containment. -/
def isAccessibilityServiceEnabled (serviceNames : List String)
    (enabledServices : Option String) : Bool :=
  if textUtilsIsEmpty enabledServices then false
  else
    match enabledServices with
    | none => false
    | some es =>
      serviceNames.any (fun serviceName => containsSubstring es serviceName)

/-- `isEnabled()` end to end: resolve candidates (absorbing manifest-scan
failure) and run the membership test. -/
def isEnabledFull (packageName : String) (serviceClassName : Option String)
    (scanResult : Except String (Option (List ServiceInfo)))
    (enabledServices : Option String) : Bool :=
  isAccessibilityServiceEnabled
    (getServiceNamesToCheck packageName serviceClassName
      (getAccessibilityServicesFromManifest scanResult))
    enabledServices

/-- The membership test as the specification words it: split the raw string
on `:`, trim each token, and succeed iff some candidate exactly equals some
token (case-sensitive, no substring matching). Stated only to be compared
with the implementation `isAccessibilityServiceEnabled`. -/
def isAnyEnabledSpecModel (candidates : List String) (raw : Option String) :
    Bool :=
  match raw with
  | none => false
  | some s =>
    if s.isEmpty then false
    else
      let tokens := (splitOnChar ':' s.toList).map trimChars
      candidates.any (fun c => tokens.any (fun t => t == c.toList))

/-! ## Event fan-out registry (`AccessibilityService.kt`)

The companion object's `eventListeners` is a synchronized `LinkedHashSet`:
a duplicate-free, insertion-ordered collection. It is embedded as a
duplicate-free `List` of opaque listener identities. -/

/-- An opaque listener identity (reference equality in Kotlin). -/
abbrev Listener := Nat

/-- The registry state: listeners in insertion order, no duplicates. -/
abbrev Registry := List Listener

/-- `addEventListener(listener)`: `Set.add` returns `true` and appends iff
the identity was absent. -/
def addEventListener (l : Listener) (reg : Registry) : Bool × Registry :=
  if l ∈ reg then (false, reg) else (true, reg ++ [l])

/-- `removeEventListener(listener)`: `Set.remove` returns `true` and erases
iff the identity was present. -/
def removeEventListener (l : Listener) (reg : Registry) : Bool × Registry :=
  if l ∈ reg then (true, reg.erase l) else (false, reg)

/-- Deprecated `setEventListener(listener)`: `clear()` then, for a non-null
argument, `add(it)`. -/
def setEventListener (l : Option Listener) (_reg : Registry) : Registry :=
  match l with
  | none => []
  | some x => [x]

/-- The event payload handed to `EventListener.onAppChanged`. -/
structure Event where
  packageName : String
  className : String
  timestamp : Nat
deriving DecidableEq

/-- Behaviour of a listener callback: invoked with an event and the current
registry state, it runs to completion or up to a thrown exception; its
registry mutations (re-entrant add/remove calls) take effect either way,
and the `Bool` records whether it threw. -/
def CallbackModel := Listener → Event → Registry → Registry × Bool

/-- The `listeners.forEach` loop of `notifyListeners`, over the snapshot:
each invocation is wrapped in its own `try`/`catch` (a thrown exception is
logged and swallowed), and the loop also records the invocation trace —
which listener was called with which arguments. -/
def dispatchLoop (cb : CallbackModel) (e : Event) :
    List Listener → Registry → Registry × List (Listener × Event)
  | [], reg => (reg, [])
  | l :: rest, reg =>
    let r := cb l e reg
    let next := dispatchLoop cb e rest r.1
    (next.1, (l, e) :: next.2)

/-- `notifyListeners(packageName, className, timestamp)`: take a snapshot
of the registry under the lock (`eventListeners.toList()`), then invoke
every snapshot entry outside the lock, each in its own `try`/`catch`. The
function is total: no callback outcome makes it fail. -/
def notifyListeners (cb : CallbackModel) (e : Event) (reg : Registry) :
    Registry × List (Listener × Event) :=
  dispatchLoop cb e reg reg

/-- Android's `AccessibilityEvent.TYPE_WINDOW_STATE_CHANGED` constant. -/
def TYPE_WINDOW_STATE_CHANGED : Nat := 32

/-- Kotlin `CharSequence?.isNullOrEmpty()`. -/
def isNullOrEmptyOpt : Option String → Bool
  | none => true
  | some s => s.isEmpty

/-- An upstream OS accessibility event: type plus nullable package and
class names (`event.packageName?.toString()` etc.). -/
structure AccessibilityEventData where
  eventType : Nat
  packageName : Option String
  className : Option String
deriving DecidableEq

/-- `onAccessibilityEvent(event)`: drop a null event, an event whose type
is not `TYPE_WINDOW_STATE_CHANGED`, and an event with a null-or-empty
package or class name; otherwise stamp the capture time and dispatch.
Returns the updated registry and the invocation trace. -/
def onAccessibilityEvent (cb : CallbackModel) (now : Nat)
    (event : Option AccessibilityEventData) (reg : Registry) :
    Registry × List (Listener × Event) :=
  match event with
  | none => (reg, [])
  | some ev =>
    if ev.eventType = TYPE_WINDOW_STATE_CHANGED then
      if !isNullOrEmptyOpt ev.packageName && !isNullOrEmptyOpt ev.className
      then
        notifyListeners cb
          { packageName := ev.packageName.getD ""
            className := ev.className.getD ""
            timestamp := now }
          reg
      else (reg, [])
    else (reg, [])

/-- A registry operation, for reasoning about arbitrary call sequences. -/
inductive RegOp where
  | addL (l : Listener)
  | removeL (l : Listener)
  | replaceAll (l : Option Listener)

/-- Apply one registry operation (keeping only the state). -/
def applyOp (reg : Registry) : RegOp → Registry
  | .addL l => (addEventListener l reg).2
  | .removeL l => (removeEventListener l reg).2
  | .replaceAll l => setEventListener l reg

/-- Apply a sequence of registry operations in order. -/
def applyOps (ops : List RegOp) (reg : Registry) : Registry :=
  ops.foldl applyOp reg

/-! ## Concrete scenario data

Fixed callback behaviours used to exercise the dispatch loop on the
scenarios named by the specification. -/

/-- The event payload used in the concrete scenarios (values from the
repository's own unit tests). -/
def ev0 : Event :=
  { packageName := "com.example.app", className := "MainActivity"
    timestamp := 1234567890 }

/-- A callback environment in which listener `2` throws on invocation and
every other listener returns normally; no listener mutates the registry. -/
def cbThrow : CallbackModel := fun l _e reg => (reg, l == 2)

/-- A callback environment in which listener `1` registers the new
listener `4` from inside its own callback. -/
def cbAddDuring : CallbackModel := fun l _e reg =>
  if l == 1 then ((addEventListener 4 reg).2, false) else (reg, false)

/-- A callback environment in which listener `1` unregisters listener `3`
from inside its own callback. -/
def cbRemoveDuring : CallbackModel := fun l _e reg =>
  if l == 1 then ((removeEventListener 3 reg).2, false) else (reg, false)

/-- A callback environment that does nothing. -/
def cbNoop : CallbackModel := fun _l _e reg => (reg, false)

/-! ## Helper lemmas -/

/-- The dispatch loop invokes exactly the snapshot entries, in order, each
with the dispatched event — whatever the callbacks do. -/
theorem dispatchLoop_trace (cb : CallbackModel) (e : Event) :
    ∀ (snap : List Listener) (reg : Registry),
      (dispatchLoop cb e snap reg).2 = snap.map (fun l => (l, e))
  | [], _ => rfl
  | l :: rest, reg => by
    simp [dispatchLoop, dispatchLoop_trace cb e rest]

/-- Appending an absent element preserves the no-duplicates invariant. -/
theorem nodup_append_single {reg : Registry} {l : Listener}
    (h : reg.Nodup) (hl : l ∉ reg) : (reg ++ [l]).Nodup := by
  simp [List.nodup_append, h, hl]

/-- Every registry operation preserves the no-duplicates invariant. -/
theorem applyOp_nodup {reg : Registry} (h : reg.Nodup) (op : RegOp) :
    (applyOp reg op).Nodup := by
  cases op with
  | addL l =>
    by_cases hl : l ∈ reg
    · simpa [applyOp, addEventListener, hl] using h
    · simpa [applyOp, addEventListener, hl] using nodup_append_single h hl
  | removeL l =>
    by_cases hl : l ∈ reg
    · simpa [applyOp, removeEventListener, hl] using h.erase l
    · simpa [applyOp, removeEventListener, hl] using h
  | replaceAll l =>
    cases l <;> simp [applyOp, setEventListener]

/-- Any sequence of registry operations preserves the no-duplicates
invariant. -/
theorem applyOps_nodup :
    ∀ (ops : List RegOp) (reg : Registry), reg.Nodup → (applyOps ops reg).Nodup
  | [], _, h => h
  | op :: rest, reg, h => applyOps_nodup rest (applyOp reg op) (applyOp_nodup h op)

/-- Once the configuration state is non-null, any further sequence of
`setServiceClassName` calls leaves it non-null. -/
theorem foldl_setServiceClassName_some :
    ∀ (future : List String) (c0 : String),
      ∃ c : String,
        future.foldl (fun s n => setServiceClassName n s) (some c0) = some c
  | [], c0 => ⟨c0, rfl⟩
  | n :: rest, _ => foldl_setServiceClassName_some rest n

/-! ## Claim theorems -/

/-- C1: the claim says the membership test matches candidates exactly
against the `:`-separated, trimmed tokens of the enabled-services string,
so `["pkg/X"]` against `"pkg/XY:other/Y"` yields `false`. The
implementation instead uses substring containment
(`enabledServices.contains(serviceName)`): on that very input it yields
`true`, diverging from the exact-token semantics (`isAnyEnabledSpecModel`)
that the specification and the repository's own test suite prescribe. On
the spec's positive example both sides agree. -/
theorem membership_substring_code_bug :
    isAccessibilityServiceEnabled ["pkg/X"] (some "pkg/XY:other/Y") = true ∧
    isAnyEnabledSpecModel ["pkg/X"] (some "pkg/XY:other/Y") = false ∧
    isAccessibilityServiceEnabled ["pkg/X"] (some "pkg/XY:pkg/X:other/Y") = true ∧
    isAnyEnabledSpecModel ["pkg/X"] (some "pkg/XY:pkg/X:other/Y") = true := by
  exact ⟨by decide, by decide, by decide, by decide⟩

/-- C2: `getServiceNamesToCheck` applies exactly one of three rules in
strict priority order — a configured class name wins for every scan result
whatsoever (empty included), else one identifier per detected name in
order for every non-empty scan result (written `d0 :: ds`), else the
single fallback identifier — and its result is never empty for any
configuration and any scan result. -/
theorem resolver_priority (pkg cls : String) :
    (∀ detected : List String,
      getServiceNamesToCheck pkg (some cls) detected = [pkg ++ "/" ++ cls]) ∧
    (∀ (d0 : String) (ds : List String),
      getServiceNamesToCheck pkg none (d0 :: ds) =
        (d0 :: ds).map (fun n => pkg ++ "/" ++ n)) ∧
    getServiceNamesToCheck pkg none [] =
      [pkg ++ "/" ++ pkg ++ ".MyAccessibilityService"] ∧
    (∀ (cfg : Option String) (d : List String),
      getServiceNamesToCheck pkg cfg d ≠ []) := by
  refine ⟨fun detected => rfl, fun d0 ds => ?_, rfl, ?_⟩
  · simp [getServiceNamesToCheck]
  · intro cfg d
    cases cfg with
    | some c => simp [getServiceNamesToCheck]
    | none =>
      cases d with
      | nil => simp [getServiceNamesToCheck]
      | cons a t => simp [getServiceNamesToCheck]

/-- C7: a thrown manifest scan is caught inside
`getAccessibilityServicesFromManifest` and degraded to the empty list; the
failure reaches neither `getServiceNamesToCheck` (whose fallback rule
therefore still fires) nor `isEnabled`, which computes the same value as
with an empty scan result. -/
theorem manifest_failure_absorbed (err pkg : String)
    (cfg enabledServices : Option String) :
    getAccessibilityServicesFromManifest (.error err) = [] ∧
    getServiceNamesToCheck pkg none
        (getAccessibilityServicesFromManifest (.error err)) =
      [pkg ++ "/" ++ pkg ++ ".MyAccessibilityService"] ∧
    isEnabledFull pkg cfg (.error err) enabledServices =
      isAccessibilityServiceEnabled (getServiceNamesToCheck pkg cfg [])
        enabledServices :=
  ⟨rfl, rfl, rfl⟩

/-- C8: for every candidate list, the membership test returns `false`
immediately when the OS-reported enabled-services string is null or
empty. -/
theorem membership_null_or_empty (serviceNames : List String) :
    isAccessibilityServiceEnabled serviceNames none = false ∧
    isAccessibilityServiceEnabled serviceNames (some "") = false :=
  ⟨rfl, rfl⟩

/-- C10: after `setServiceClassName("")` the configuration is non-null, so
rule 1 fires with the empty class name and the resolver returns exactly the
malformed identifier `pkg ++ "/"`; no later sequence of
`setServiceClassName` calls can return the state to `none`, and while the
state is non-null the resolver always returns the single configured
identifier, so neither auto-detection nor the fallback can fire again. -/
theorem empty_classname_sticks (pkg : String) (detected : List String)
    (cfg : Option String) (future : List String) :
    getServiceNamesToCheck pkg (setServiceClassName "" cfg) detected =
      [pkg ++ "/"] ∧
    (∃ c : String,
      future.foldl (fun s n => setServiceClassName n s)
        (setServiceClassName "" cfg) = some c) ∧
    (∀ c : String,
      getServiceNamesToCheck pkg (some c) detected = [pkg ++ "/" ++ c]) := by
  refine ⟨?_, ?_, fun c => rfl⟩
  · show [pkg ++ "/" ++ ""] = [pkg ++ "/"]
    rw [String.append_empty]
  · exact foldl_setServiceClassName_some future ""

/-- C3: whatever the callbacks do — including throwing — `notifyListeners`
invokes every listener of its snapshot with the same arguments and returns
normally (it is a total function: no callback outcome makes it fail). In
particular, with three registered listeners of which the second throws
(`cbThrow`), the first and third are still invoked. -/
theorem dispatch_fanout_isolation (cb : CallbackModel) (e : Event)
    (reg : Registry) :
    (notifyListeners cb e reg).2 = reg.map (fun l => (l, e)) ∧
    (notifyListeners cbThrow ev0 [1, 2, 3]).2 =
      [(1, ev0), (2, ev0), (3, ev0)] := by
  exact ⟨dispatchLoop_trace cb e reg reg, by decide⟩

/-- C4: `notifyListeners` invokes exactly the listeners registered when the
dispatch begins: a listener is in the invocation trace iff it is in the
registry at call time. Concretely, when listener 1's callback adds listener
4 (`cbAddDuring`), 4 ends up registered but is not invoked in that
dispatch; when listener 1's callback removes listener 3
(`cbRemoveDuring`), 3 is gone from the registry afterwards but is still
invoked. -/
theorem dispatch_snapshot_semantics (cb : CallbackModel) (e : Event)
    (reg : Registry) (l : Listener) :
    ((l, e) ∈ (notifyListeners cb e reg).2 ↔ l ∈ reg) ∧
    (notifyListeners cbAddDuring ev0 [1, 2, 3]).1 = [1, 2, 3, 4] ∧
    (notifyListeners cbAddDuring ev0 [1, 2, 3]).2 =
      [(1, ev0), (2, ev0), (3, ev0)] ∧
    (notifyListeners cbRemoveDuring ev0 [1, 2, 3]).1 = [1, 2] ∧
    (notifyListeners cbRemoveDuring ev0 [1, 2, 3]).2 =
      [(1, ev0), (2, ev0), (3, ev0)] := by
  refine ⟨?_, by decide, by decide, by decide, by decide⟩
  rw [show (notifyListeners cb e reg).2 = reg.map (fun x => (x, e)) from
    dispatchLoop_trace cb e reg reg]
  simp

/-- C5: on a duplicate-free registry, `addEventListener` succeeds iff the
listener is absent (appending it), is a strict no-op returning `false` when
it is present; `removeEventListener` succeeds iff the listener is present
(erasing exactly it), and is a strict no-op returning `false` otherwise;
and after any operation sequence from the empty registry every identity
appears at most once. -/
theorem registry_add_remove_contract (reg : Registry) (l : Listener)
    (h : reg.Nodup) :
    ((addEventListener l reg).1 = true ↔ l ∉ reg) ∧
    (l ∉ reg → (addEventListener l reg).2 = reg ++ [l]) ∧
    (l ∈ reg → addEventListener l reg = (false, reg)) ∧
    ((removeEventListener l reg).1 = true ↔ l ∈ reg) ∧
    (∀ x : Listener,
      x ∈ (removeEventListener l reg).2 ↔ x ∈ reg ∧ x ≠ l) ∧
    (l ∉ reg → removeEventListener l reg = (false, reg)) ∧
    (∀ (ops : List RegOp) (x : Listener), (applyOps ops []).count x ≤ 1) := by
  refine ⟨?_, ?_, ?_, ?_, ?_, ?_, ?_⟩
  · by_cases hl : l ∈ reg <;> simp [addEventListener, hl]
  · intro hl
    simp [addEventListener, hl]
  · intro hl
    simp [addEventListener, hl]
  · by_cases hl : l ∈ reg <;> simp [removeEventListener, hl]
  · intro x
    by_cases hl : l ∈ reg
    · simp only [removeEventListener, if_pos hl]
      rw [h.mem_erase_iff]
      tauto
    · simp [removeEventListener, hl]
      intro hx hxl
      exact hl (hxl ▸ hx)
  · intro hl
    simp [removeEventListener, hl]
  · intro ops x
    exact List.nodup_iff_count_le_one.mp (applyOps_nodup ops [] List.nodup_nil) x

/-- Witness for C5 at `reg = [1, 2]`, `l = 1`. -/
theorem registry_add_remove_contract_witness :
    ([1, 2] : Registry).Nodup ∧
    (((addEventListener 1 [1, 2]).1 = true ↔ 1 ∉ ([1, 2] : Registry)) ∧
     (1 ∉ ([1, 2] : Registry) →
       (addEventListener 1 [1, 2]).2 = [1, 2] ++ [1]) ∧
     (1 ∈ ([1, 2] : Registry) → addEventListener 1 [1, 2] = (false, [1, 2])) ∧
     ((removeEventListener 1 [1, 2]).1 = true ↔ 1 ∈ ([1, 2] : Registry)) ∧
     (∀ x : Listener,
       x ∈ (removeEventListener 1 [1, 2]).2 ↔ x ∈ ([1, 2] : Registry) ∧ x ≠ 1) ∧
     (1 ∉ ([1, 2] : Registry) → removeEventListener 1 [1, 2] = (false, [1, 2])) ∧
     (∀ (ops : List RegOp) (x : Listener), (applyOps ops []).count x ≤ 1)) :=
  ⟨by decide, registry_add_remove_contract [1, 2] 1 (by decide)⟩

/-- C6: the legacy `setEventListener` empties the registry and inserts at
most the supplied listener: with `none` the registry is left empty, with
`some l3` it becomes exactly `[l3]`; hence after `add(L1); add(L2);
replaceAll(L3)` (with `L3` distinct from `L1`, `L2`), removing `L1` or
`L2` reports `false` and removing `L3` reports `true`. -/
theorem replaceAll_legacy (reg : Registry) (l1 l2 l3 : Listener)
    (h1 : l1 ≠ l3) (h2 : l2 ≠ l3) :
    setEventListener none reg = [] ∧
    setEventListener (some l3) reg = [l3] ∧
    (removeEventListener l1 (setEventListener (some l3)
      (addEventListener l2 (addEventListener l1 []).2).2)).1 = false ∧
    (removeEventListener l2 (setEventListener (some l3)
      (addEventListener l2 (addEventListener l1 []).2).2)).1 = false ∧
    (removeEventListener l3 (setEventListener (some l3)
      (addEventListener l2 (addEventListener l1 []).2).2)).1 = true := by
  refine ⟨rfl, rfl, ?_, ?_, ?_⟩ <;>
    simp [setEventListener, removeEventListener, h1, h2]

/-- Witness for C6 at `reg = [9]`, `L1 = 1`, `L2 = 2`, `L3 = 3`. -/
theorem replaceAll_legacy_witness :
    (1 : Listener) ≠ 3 ∧ (2 : Listener) ≠ 3 ∧
    (setEventListener none [9] = [] ∧
     setEventListener (some 3) [9] = [3] ∧
     (removeEventListener 1 (setEventListener (some 3)
       (addEventListener 2 (addEventListener 1 []).2).2)).1 = false ∧
     (removeEventListener 2 (setEventListener (some 3)
       (addEventListener 2 (addEventListener 1 []).2).2)).1 = false ∧
     (removeEventListener 3 (setEventListener (some 3)
       (addEventListener 2 (addEventListener 1 []).2).2)).1 = true) :=
  ⟨by decide, by decide, replaceAll_legacy [9] 1 2 3 (by decide) (by decide)⟩

/-- C9: `onAccessibilityEvent` drops a null event, an event whose type is
not `TYPE_WINDOW_STATE_CHANGED`, and an event whose package or class name
is null or empty: the registry is untouched and the invocation trace is
empty, so no listener is ever invoked for such an event. -/
theorem malformed_event_dropped (cb : CallbackModel) (now : Nat)
    (reg : Registry) (event : Option AccessibilityEventData)
    (h : event = none ∨ ∃ ev, event = some ev ∧
      (ev.eventType ≠ TYPE_WINDOW_STATE_CHANGED ∨
       isNullOrEmptyOpt ev.packageName = true ∨
       isNullOrEmptyOpt ev.className = true)) :
    onAccessibilityEvent cb now event reg = (reg, []) := by
  rcases h with h | ⟨ev, rfl, h⟩
  · rw [h]
    rfl
  · rcases h with h | h | h
    · simp [onAccessibilityEvent, h]
    · simp [onAccessibilityEvent, h]
    · simp [onAccessibilityEvent, h]

/-- Witness for C9: a window-state-changed event with an empty class name
is dropped with two listeners registered. -/
theorem malformed_event_dropped_witness :
    onAccessibilityEvent cbNoop 5
      (some { eventType := 32, packageName := some "com.example.app"
              className := some "" }) [1, 2] = ([1, 2], []) :=
  malformed_event_dropped cbNoop 5 [1, 2]
    (some { eventType := 32, packageName := some "com.example.app"
            className := some "" })
    (Or.inr ⟨_, rfl, Or.inr (Or.inr (by decide))⟩)

end ExpoAccessibility
